import Mathlib

/-!
Shallow embedding of the Orchestrall Python SDK
(`packages/client-sdks/python/orchestrall_sdk.py`).

The SDK's observable behaviour per call is a pure function of the server's
HTTP response, so each SDK operation is embedded as a function from an
`HttpResponse` (status code plus already-parsed JSON body) to
`Except SdkError <typed result>`.  Python-level behaviours that matter to
the claims are modelled explicitly:

* Python truthiness (`if response.error:`, `if not result.get('success')`)
  via `Json.truthy`;
* `dict[...]` subscription (raises `KeyError` / `TypeError`) via `jsonIndex`;
* `dict.get(...)` (raises `AttributeError` on non-dicts) via `dictGet`;
* `requests.Response.raise_for_status` via `raiseForStatus`;
* `MCPResponse(**body)` dataclass unpacking (raises `TypeError` on any
  unexpected keyword) via `execute_mcp`;
* `str.replace('http', 'ws')` (replaces every non-overlapping occurrence,
  left to right) via `replaceHttpWs`;
* `str(int(time.time() * 1000))` with wall-clock time modelled as a natural
  number of microseconds since the epoch, so that `int(t * 1000)` is
  integer division by 1000 (`mcpCorrelationId`);
* the urllib3 `Retry(total := retries)` policy mounted on the session,
  including its default allowed-methods gate (status-based retries apply
  only to the idempotent methods in `Retry.DEFAULT_ALLOWED_METHODS`,
  which excludes POST), as a loop over the statuses the server would
  return on successive attempts (`retryLoop` / `sendWithRetry`).
-/

/-- JSON values, as produced by `response.json()` / `json.loads`. -/
inductive Json where
  | null : Json
  | bool (b : Bool) : Json
  | num (n : Int) : Json
  | str (s : String) : Json
  | arr (elems : List Json) : Json
  | obj (fields : List (String × Json)) : Json
  deriving Repr

/-- Python truthiness of a JSON value (`bool(x)` for the corresponding
Python value: `None`, `False`, `0`, `""`, `[]`, `{}` are falsy). -/
def Json.truthy : Json → Bool
  | .null => false
  | .bool b => b
  | .num n => n != 0
  | .str s => s != ""
  | .arr elems => !elems.isEmpty
  | .obj fields => !fields.isEmpty

/-- Errors an SDK call can raise.  Mirrors the exceptions the Python code
can actually raise: `requests.HTTPError` from `raise_for_status`, the
urllib3 `MaxRetryError`/`RetryError` when the retry budget is exhausted,
the bare `Exception(...)` raises in the SDK itself, and the builtin
`KeyError`/`TypeError`/`AttributeError`. -/
inductive SdkError where
  | httpStatus (code : Nat) : SdkError
  | retryExhausted (lastStatus : Nat) : SdkError
  | operationFailed (message : String) (envelope : Json) : SdkError
  | rpcError (message : Json) : SdkError
  | keyError (key : String) : SdkError
  | typeError (message : String) : SdkError
  | attributeError (message : String) : SdkError
  deriving Repr

/-- A server HTTP response as the SDK observes it: status code and parsed
JSON body. -/
structure HttpResponse where
  status : Nat
  body : Json
  deriving Repr

/-- `response.raise_for_status()`: raises `requests.HTTPError` exactly for
4xx and 5xx status codes. -/
def raiseForStatus (r : HttpResponse) : Except SdkError Unit :=
  if 400 ≤ r.status ∧ r.status < 600 then .error (.httpStatus r.status) else .ok ()

/-- Python `d[k]` on a JSON value: a `KeyError` when the key is missing
from a dict, a `TypeError` when the value is not a dict at all. -/
def jsonIndex (j : Json) (k : String) : Except SdkError Json :=
  match j with
  | .obj fields =>
    match fields.lookup k with
    | some v => .ok v
    | none => .error (.keyError k)
  | _ => .error (.typeError "not subscriptable by string key")

/-- Python `d.get(k)` on a JSON value: `none` models Python `None` for a
missing key; calling `.get` on a non-dict raises `AttributeError`. -/
def dictGet (j : Json) (k : String) : Except SdkError (Option Json) :=
  match j with
  | .obj fields => .ok (fields.lookup k)
  | _ => .error (.attributeError "object has no attribute get")

/-- `OrchestrallConfig` dataclass: base URL, API key, timeout, retries. -/
structure OrchestrallConfig where
  base_url : String
  api_key : String
  timeout : Nat := 30
  retries : Nat := 3
  deriving Repr, DecidableEq

/-- `AgentResponse` dataclass: `response`, `metadata`, optional `actions`.
Field values are whatever JSON the server supplied (Python is untyped
here), so they are embedded as `Json`. -/
structure AgentResponse where
  response : Json
  metadata : Json
  actions : Option Json := none
  deriving Repr

/-- `WorkflowResponse` dataclass: `execution_id`, `status`, optional
`result`, `metadata`. -/
structure WorkflowResponse where
  execution_id : Json
  status : Json
  result : Option Json := none
  metadata : Json
  deriving Repr

/-- `OrchestrallSDK.execute_agent`, from the point where the server's
response is in hand:
`raise_for_status()`; raise on a falsy `result.get('success')`;
then build `AgentResponse(data['response'], data['metadata'],
data.get('actions'))`. -/
def execute_agent (http : HttpResponse) : Except SdkError AgentResponse :=
  match raiseForStatus http with
  | .error e => .error e
  | .ok _ =>
    match dictGet http.body "success" with
    | .error e => .error e
    | .ok success =>
      if ((success.getD .null).truthy : Bool) = false then
        .error (.operationFailed "Agent execution failed" http.body)
      else
        match jsonIndex http.body "data" with
        | .error e => .error e
        | .ok d =>
          match jsonIndex d "response" with
          | .error e => .error e
          | .ok r =>
            match jsonIndex d "metadata" with
            | .error e => .error e
            | .ok m =>
              match dictGet d "actions" with
              | .error e => .error e
              | .ok actions => .ok { response := r, metadata := m, actions := actions }

/-- `OrchestrallSDK.execute_workflow`, response handling:
`raise_for_status()`; raise on falsy `result.get('success')`; then build
`WorkflowResponse(data['executionId'], data['status'], data.get('result'),
data.get('metadata', {}))`. -/
def execute_workflow (http : HttpResponse) : Except SdkError WorkflowResponse :=
  match raiseForStatus http with
  | .error e => .error e
  | .ok _ =>
    match dictGet http.body "success" with
    | .error e => .error e
    | .ok success =>
      if ((success.getD .null).truthy : Bool) = false then
        .error (.operationFailed "Workflow execution failed" http.body)
      else
        match jsonIndex http.body "data" with
        | .error e => .error e
        | .ok d =>
          match jsonIndex d "executionId" with
          | .error e => .error e
          | .ok eid =>
            match jsonIndex d "status" with
            | .error e => .error e
            | .ok st =>
              match dictGet d "result" with
              | .error e => .error e
              | .ok res =>
                match dictGet d "metadata" with
                | .error e => .error e
                | .ok md =>
                  .ok { execution_id := eid, status := st, result := res,
                        metadata := (md.getD (.obj [])) }

/-- `OrchestrallSDK.get_available_agents`, response handling:
`raise_for_status()`; then `return result['data']` — note: no check of the
`success` flag. -/
def get_available_agents (http : HttpResponse) : Except SdkError Json :=
  match raiseForStatus http with
  | .error e => .error e
  | .ok _ => jsonIndex http.body "data"

/-- `OrchestrallSDK.get_available_workflows`, response handling: identical
shape to `get_available_agents` (no `success` check). -/
def get_available_workflows (http : HttpResponse) : Except SdkError Json :=
  match raiseForStatus http with
  | .error e => .error e
  | .ok _ => jsonIndex http.body "data"

/-- `OrchestrallSDK.get_available_plugins`, response handling: identical
shape (no `success` check). -/
def get_available_plugins (http : HttpResponse) : Except SdkError Json :=
  match raiseForStatus http with
  | .error e => .error e
  | .ok _ => jsonIndex http.body "data"

/-- `OrchestrallSDK.get_platform_analytics`, response handling: identical
shape (no `success` check). -/
def get_platform_analytics (http : HttpResponse) : Except SdkError Json :=
  match raiseForStatus http with
  | .error e => .error e
  | .ok _ => jsonIndex http.body "data"

/-- `MCPRequest` dataclass: `jsonrpc` (default `"2.0"`), `id`, `method`,
`params`.  `id` and `params` default to Python `None`, embedded as
`Json.null`. -/
structure MCPRequest where
  jsonrpc : String := "2.0"
  id : Json := .null
  method : String := ""
  params : Json := .null
  deriving Repr

/-- `MCPResponse` dataclass: `jsonrpc = "2.0"`, `id = None`,
`result = None`, `error = None` as defaults; fields are overwritten by
whatever JSON values the keyword arguments supply. -/
structure MCPResponse where
  jsonrpc : Json := .str "2.0"
  id : Json := .null
  result : Json := .null
  error : Json := .null
  deriving Repr

/-- The wire body `execute_mcp` posts for a request:
`{'jsonrpc': ..., 'id': ..., 'method': ..., 'params': ...}`. -/
def mcpRequestBody (req : MCPRequest) : Json :=
  .obj [("jsonrpc", .str req.jsonrpc), ("id", req.id),
        ("method", .str req.method), ("params", req.params)]

/-- The four field names of the `MCPResponse` dataclass — the only keyword
arguments `MCPResponse(**body)` accepts. -/
def mcpAllowedKeys : List String := ["jsonrpc", "id", "result", "error"]

/-- `OrchestrallSDK.execute_mcp`, response handling:
`raise_for_status()`, then `MCPResponse(**response.json())`.
Dataclass `**` unpacking requires the body to be a mapping (else
`TypeError`), rejects any keyword outside the dataclass's four fields
(`TypeError: unexpected keyword argument`), and falls back to the field
defaults for keys that are absent.  Nothing inspects `response.id`. -/
def execute_mcp (_req : MCPRequest) (http : HttpResponse) : Except SdkError MCPResponse :=
  match raiseForStatus http with
  | .error e => .error e
  | .ok _ =>
    match http.body with
    | .obj fields =>
      if fields.all (fun kv => mcpAllowedKeys.contains kv.1) then
        .ok { jsonrpc := (fields.lookup "jsonrpc").getD (.str "2.0"),
              id := (fields.lookup "id").getD .null,
              result := (fields.lookup "result").getD .null,
              error := (fields.lookup "error").getD .null }
      else
        .error (.typeError "unexpected keyword argument")
    | _ => .error (.typeError "argument after ** must be a mapping")

/-- `str(int(time.time() * 1000))` — the correlation id both MCP-client
calls generate.  Wall-clock time `t` is modelled in whole microseconds
since the epoch, so the Python expression is the decimal string of
`t / 1000` (the millisecond timestamp, floored). -/
def mcpCorrelationId (t : Nat) : String := toString (t / 1000)

/-- The `MCPRequest` built by `OrchestrallMCPClient.execute_tool` at
time `t`: method `tools/call`, params `{name, arguments}`, id from
`mcpCorrelationId`. -/
def executeToolRequest (tool_name : String) (args : Json) (t : Nat) : MCPRequest :=
  { id := .str (mcpCorrelationId t),
    method := "tools/call",
    params := .obj [("name", .str tool_name), ("arguments", args)] }

/-- The `MCPRequest` built by `OrchestrallMCPClient.get_available_tools`
at time `t`: method `tools/list`, no params. -/
def getAvailableToolsRequest (t : Nat) : MCPRequest :=
  { id := .str (mcpCorrelationId t), method := "tools/list" }

/-- `OrchestrallMCPClient.execute_tool` at time `t`, given the server's
HTTP response: build the request, run `execute_mcp`, then
`if response.error:` (Python truthiness!) raise
`Exception(... response.error['message'])`, else `return response.result`. -/
def execute_tool (tool_name : String) (args : Json) (t : Nat)
    (http : HttpResponse) : Except SdkError Json :=
  match execute_mcp (executeToolRequest tool_name args t) http with
  | .error e => .error e
  | .ok response =>
    if response.error.truthy then
      match jsonIndex response.error "message" with
      | .ok msg => .error (.rpcError msg)
      | .error e => .error e
    else .ok response.result

/-- `OrchestrallMCPClient.get_available_tools` at time `t`:
same error handling as `execute_tool`, then `return
response.result['tools']`. -/
def get_available_tools (t : Nat) (http : HttpResponse) : Except SdkError Json :=
  match execute_mcp (getAvailableToolsRequest t) http with
  | .error e => .error e
  | .ok response =>
    if response.error.truthy then
      match jsonIndex response.error "message" with
      | .ok msg => .error (.rpcError msg)
      | .error e => .error e
    else jsonIndex response.result "tools"

/-- The `status_forcelist` handed to `urllib3.util.retry.Retry` in
`_create_session`. -/
def retryableStatuses : List Nat := [429, 500, 502, 503, 504]

/-- Whether a status code is in the session's `status_forcelist`. -/
def isRetryableStatus (s : Nat) : Bool := retryableStatuses.contains s

/-- urllib3's `Retry.DEFAULT_ALLOWED_METHODS`: `_create_session` does not
override it, so only these (idempotent) HTTP methods are eligible for
status-based retries.  POST — used by `execute_agent`, `execute_workflow`
and `execute_mcp` — is not among them. -/
def defaultAllowedMethods : List String :=
  ["HEAD", "GET", "PUT", "DELETE", "OPTIONS", "TRACE"]

/-- urllib3 `Retry._is_method_retryable` with the default
`allowed_methods`. -/
def isMethodRetryable (method : String) : Bool := defaultAllowedMethods.contains method

/-- urllib3 `Retry.is_retry(method, status)` for this session's
configuration: the method gate is checked first, then the
`status_forcelist`. -/
def isRetry (method : String) (s : Nat) : Bool :=
  isMethodRetryable method && isRetryableStatus s

/-- The urllib3 `Retry(total := retries, status_forcelist := ...)` loop
mounted on the session, abstracted over the statuses the server returns on
successive attempts (`statuses i` is the status of attempt `i`, 0-based).
urllib3 semantics: after each response for which
`is_retry(method, status)` holds — the method must be in the default
allowed-methods set *and* the status in the forcelist — `Retry.increment`
consumes one unit of `total`; once `total` is exhausted a `MaxRetryError`
is raised (surfaced by `requests` as a retry-exhaustion connection error
whose message names the last status).  A response that is not retried
(non-forcelist status, or a non-allowlisted method such as POST) ends the
loop immediately with that status.  Returns (number of attempts made,
outcome). -/
def retryLoop (method : String) (statuses : Nat → Nat) :
    Nat → Nat → Nat × Except SdkError Nat
  | attempt, 0 =>
    if isRetry method (statuses attempt) then
      (attempt + 1, .error (.retryExhausted (statuses attempt)))
    else
      (attempt + 1, .ok (statuses attempt))
  | attempt, remaining + 1 =>
    if isRetry method (statuses attempt) then
      retryLoop method statuses (attempt + 1) remaining
    else
      (attempt + 1, .ok (statuses attempt))

/-- One call through the session created by `_create_session` with
`Retry(total := retries)`, issued with the given HTTP method: the initial
attempt plus up to `retries` status-driven retries (none when the method
is outside the default allowed-methods set). -/
def sendWithRetry (method : String) (retries : Nat) (statuses : Nat → Nat) :
    Nat × Except SdkError Nat :=
  retryLoop method statuses 0 retries

/-- The default headers `_create_session` installs on the session; the
`requests` session attaches them to every request it sends. -/
def sessionHeaders (config : OrchestrallConfig) : List (String × String) :=
  [("Content-Type", "application/json"), ("X-API-Key", config.api_key)]

/-- Method, URL and headers of one SDK HTTP request. -/
structure HttpRequestMeta where
  method : String
  url : String
  headers : List (String × String)
  deriving Repr, DecidableEq

/-- The request `execute_agent` issues (`self.session.post`, so the
session's default headers are attached). -/
def executeAgentRequestMeta (config : OrchestrallConfig) : HttpRequestMeta :=
  { method := "POST", url := config.base_url ++ "/v2/agents/execute",
    headers := sessionHeaders config }

/-- The request `get_available_agents` issues (`self.session.get`). -/
def getAvailableAgentsRequestMeta (config : OrchestrallConfig) : HttpRequestMeta :=
  { method := "GET", url := config.base_url ++ "/v2/agents",
    headers := sessionHeaders config }

/-- The request `execute_workflow` issues (`self.session.post`). -/
def executeWorkflowRequestMeta (config : OrchestrallConfig) : HttpRequestMeta :=
  { method := "POST", url := config.base_url ++ "/v2/workflows/execute",
    headers := sessionHeaders config }

/-- The request `get_available_workflows` issues (`self.session.get`). -/
def getAvailableWorkflowsRequestMeta (config : OrchestrallConfig) : HttpRequestMeta :=
  { method := "GET", url := config.base_url ++ "/v2/workflows",
    headers := sessionHeaders config }

/-- The request `get_available_plugins` issues (`self.session.get`). -/
def getAvailablePluginsRequestMeta (config : OrchestrallConfig) : HttpRequestMeta :=
  { method := "GET", url := config.base_url ++ "/v2/plugins",
    headers := sessionHeaders config }

/-- The request `get_platform_analytics` issues (`self.session.get`). -/
def getPlatformAnalyticsRequestMeta (config : OrchestrallConfig) : HttpRequestMeta :=
  { method := "GET", url := config.base_url ++ "/v2/analytics/platform",
    headers := sessionHeaders config }

/-- The request `get_health` issues (`self.session.get`). -/
def getHealthRequestMeta (config : OrchestrallConfig) : HttpRequestMeta :=
  { method := "GET", url := config.base_url ++ "/v2/health",
    headers := sessionHeaders config }

/-- The request `execute_mcp` issues (`self.session.post`). -/
def executeMcpRequestMeta (config : OrchestrallConfig) : HttpRequestMeta :=
  { method := "POST", url := config.base_url ++ "/v2/mcp/execute",
    headers := sessionHeaders config }

/-- The request `get_mcp_capabilities` issues (`self.session.get`). -/
def getMcpCapabilitiesRequestMeta (config : OrchestrallConfig) : HttpRequestMeta :=
  { method := "GET", url := config.base_url ++ "/v2/mcp/discovery",
    headers := sessionHeaders config }

/-- The `header` dict `connect_websocket` passes to `WebSocketApp`. -/
def websocketHeaders (config : OrchestrallConfig) : List (String × String) :=
  [("X-API-Key", config.api_key)]

/-- Whether a character list starts with the four characters `http`. -/
def startsWithHttp : List Char → Bool
  | 'h' :: 't' :: 't' :: 'p' :: _ => true
  | _ => false

/-- Python `str.replace('http', 'ws')` on a character list: scan left to
right; wherever the next four characters are `http`, emit `ws` and skip
them; otherwise copy one character.  Fuel-indexed for structural
recursion; each step consumes at least one character, so fuel equal to
the list length always suffices and the fuel-0 fallback is unreachable
from `replaceHttpWs`. -/
def replaceHttpWsAux : Nat → List Char → List Char
  | 0, l => l
  | _ + 1, [] => []
  | fuel + 1, c :: rest =>
    if startsWithHttp (c :: rest) then
      'w' :: 's' :: replaceHttpWsAux fuel ((c :: rest).drop 4)
    else
      c :: replaceHttpWsAux fuel rest

/-- Python `s.replace('http', 'ws')`. -/
def replaceHttpWs (l : List Char) : List Char := replaceHttpWsAux l.length l

/-- Whether `http` occurs as a substring of a character list. -/
def containsHttp : List Char → Bool
  | [] => false
  | c :: rest => startsWithHttp (c :: rest) || containsHttp rest

/-- The URL `connect_websocket` opens:
`self.config.base_url.replace('http', 'ws') + '/v2/events'`. -/
def ws_url (config : OrchestrallConfig) : String :=
  String.mk (replaceHttpWs config.base_url.toList) ++ "/v2/events"

/-- What one invocation of the `on_message` callback in
`connect_websocket` does with a frame. -/
structure WsMessageOutcome where
  /-- the `print('Failed to parse WebSocket message: ...')` in the
  `json.JSONDecodeError` handler ran -/
  printedParseFailure : Bool
  /-- `event_handlers[event_type](data)` was invoked for this key -/
  dispatchedTo : Option String
  /-- an exception escaped the callback (only `json.JSONDecodeError` is
  caught) -/
  raised : Bool
  deriving Repr, DecidableEq

/-- The `on_message` callback of `connect_websocket`.  `handlers` is the
list of keys of the caller's `event_handlers` dict; `frame` is the result
of `json.loads(message)` (`none` = `json.JSONDecodeError`).  The `try`
block catches only `JSONDecodeError` and prints; a frame that parses to a
non-dict makes `data.get('type')` raise an uncaught `AttributeError`; a
dict frame is dispatched to `event_handlers[data.get('type')]` when
`event_handlers` is non-empty and has that key, and is otherwise silently
ignored. -/
def on_message (handlers : List String) (frame : Option Json) : WsMessageOutcome :=
  match frame with
  | none => { printedParseFailure := true, dispatchedTo := none, raised := false }
  | some data =>
    match data with
    | .obj fields =>
      match fields.lookup "type" with
      | some (.str s) =>
        if handlers ≠ [] ∧ s ∈ handlers then
          { printedParseFailure := false, dispatchedTo := some s, raised := false }
        else
          { printedParseFailure := false, dispatchedTo := none, raised := false }
      | _ => { printedParseFailure := false, dispatchedTo := none, raised := false }
    | _ => { printedParseFailure := false, dispatchedTo := none, raised := true }

theorem retryLoop_all_retryable (method : String) (statuses : Nat → Nat)
    (hmethod : isMethodRetryable method = true)
    (h : ∀ i, isRetryableStatus (statuses i) = true) :
    ∀ (remaining attempt : Nat),
      retryLoop method statuses attempt remaining =
        (attempt + remaining + 1,
          .error (.retryExhausted (statuses (attempt + remaining)))) := by
  intro remaining
  induction remaining with
  | zero => intro attempt; simp [retryLoop, isRetry, hmethod, h attempt]
  | succ r ih =>
    intro attempt
    have harith : attempt + 1 + r = attempt + (r + 1) := by omega
    have hretry : isRetry method (statuses attempt) = true := by
      simp [isRetry, hmethod, h attempt]
    simp only [retryLoop, hretry, if_true]
    rw [ih (attempt + 1), harith]

theorem retryable_status_is_error_status (s : Nat)
    (h : isRetryableStatus s = true) : 400 ≤ s ∧ s < 600 := by
  simp [isRetryableStatus, retryableStatuses] at h
  rcases h with h | h | h | h | h <;> omega

/-- C3 (amended): status-based retries are gated by urllib3's default
allowed-methods set, which `_create_session` does not override.  When
every attempt draws a retryable status (429/500/502/503/504): for a call
with an allowlisted (idempotent) method — the SDK's GET operations — the
session makes `retries + 1` attempts in total, the initial attempt plus
the configured number of retries (one more than the claimed bound), and
then fails with a retry-exhaustion connection error carrying the last
observed status, not an HTTP-status error; for a call with a method
outside the allowlist — the SDK's POST operations `execute_agent`,
`execute_workflow` and `execute_mcp` — the status is never retried:
exactly one attempt is made, the response is handed back, and the
operation's `raise_for_status` then fails with an HTTP-status error
carrying that status. -/
theorem sendWithRetry_method_gated (retries : Nat) (statuses : Nat → Nat)
    (h : ∀ i, isRetryableStatus (statuses i) = true) :
    (∀ method, isMethodRetryable method = true →
        sendWithRetry method retries statuses =
          (retries + 1, .error (.retryExhausted (statuses retries)))) ∧
    (∀ method, isMethodRetryable method = false →
        sendWithRetry method retries statuses = (1, .ok (statuses 0)) ∧
        raiseForStatus ⟨statuses 0, .null⟩ = .error (.httpStatus (statuses 0))) := by
  constructor
  · intro method hmethod
    have hmain := retryLoop_all_retryable method statuses hmethod h retries 0
    simpa [sendWithRetry] using hmain
  · intro method hmethod
    have hnoretry : isRetry method (statuses 0) = false := by
      simp [isRetry, hmethod]
    constructor
    · cases retries with
      | zero => simp [sendWithRetry, retryLoop, hnoretry]
      | succ r => simp [sendWithRetry, retryLoop, hnoretry]
    · have hrange := retryable_status_is_error_status (statuses 0) (h 0)
      simp [raiseForStatus, hrange]

/-- Witness for C3's amended theorem: default configuration
(`retries = 3`), server answering 500 on every attempt — 4 attempts for a
GET call, a single attempt followed by an HTTP-status error for a POST
call. -/
theorem sendWithRetry_method_gated_witness :
    sendWithRetry "GET" 3 (fun _ => 500) = (4, .error (.retryExhausted 500)) ∧
    sendWithRetry "POST" 3 (fun _ => 500) = (1, .ok 500) ∧
    raiseForStatus ⟨500, .null⟩ = .error (.httpStatus 500) :=
  ⟨(sendWithRetry_method_gated 3 (fun _ => 500) (fun _ => rfl)).1 "GET" rfl,
   ((sendWithRetry_method_gated 3 (fun _ => 500) (fun _ => rfl)).2 "POST" rfl).1,
   ((sendWithRetry_method_gated 3 (fun _ => 500) (fun _ => rfl)).2 "POST" rfl).2⟩

/-- C3 counterexample: with the configured retry count 3 and a server
answering HTTP 500 on every attempt, a GET call through the session (e.g.
`get_available_agents`) makes 4 attempts — more than the claimed bound of
"retry count attempts total (including the first)". -/
theorem retry_attempt_count_counterexample :
    (sendWithRetry "GET" 3 (fun _ => 500)).1 = 4 ∧ ¬ (4 ≤ 3) := by
  exact ⟨rfl, by decide⟩

/-- C4: every request any SDK operation issues through the session carries
both `X-API-Key: <credential>` and `Content-Type: application/json`, and
the WebSocket connection carries the same `X-API-Key` credential
header. -/
theorem every_request_carries_credential_headers (config : OrchestrallConfig) :
    (("X-API-Key", config.api_key) ∈ (executeAgentRequestMeta config).headers ∧
      ("Content-Type", "application/json") ∈ (executeAgentRequestMeta config).headers) ∧
    (("X-API-Key", config.api_key) ∈ (getAvailableAgentsRequestMeta config).headers ∧
      ("Content-Type", "application/json") ∈ (getAvailableAgentsRequestMeta config).headers) ∧
    (("X-API-Key", config.api_key) ∈ (executeWorkflowRequestMeta config).headers ∧
      ("Content-Type", "application/json") ∈ (executeWorkflowRequestMeta config).headers) ∧
    (("X-API-Key", config.api_key) ∈ (getAvailableWorkflowsRequestMeta config).headers ∧
      ("Content-Type", "application/json") ∈ (getAvailableWorkflowsRequestMeta config).headers) ∧
    (("X-API-Key", config.api_key) ∈ (getAvailablePluginsRequestMeta config).headers ∧
      ("Content-Type", "application/json") ∈ (getAvailablePluginsRequestMeta config).headers) ∧
    (("X-API-Key", config.api_key) ∈ (getPlatformAnalyticsRequestMeta config).headers ∧
      ("Content-Type", "application/json") ∈ (getPlatformAnalyticsRequestMeta config).headers) ∧
    (("X-API-Key", config.api_key) ∈ (getHealthRequestMeta config).headers ∧
      ("Content-Type", "application/json") ∈ (getHealthRequestMeta config).headers) ∧
    (("X-API-Key", config.api_key) ∈ (executeMcpRequestMeta config).headers ∧
      ("Content-Type", "application/json") ∈ (executeMcpRequestMeta config).headers) ∧
    (("X-API-Key", config.api_key) ∈ (getMcpCapabilitiesRequestMeta config).headers ∧
      ("Content-Type", "application/json") ∈ (getMcpCapabilitiesRequestMeta config).headers) ∧
    ("X-API-Key", config.api_key) ∈ websocketHeaders config := by
  simp [executeAgentRequestMeta, getAvailableAgentsRequestMeta,
        executeWorkflowRequestMeta, getAvailableWorkflowsRequestMeta,
        getAvailablePluginsRequestMeta, getPlatformAnalyticsRequestMeta,
        getHealthRequestMeta, executeMcpRequestMeta, getMcpCapabilitiesRequestMeta,
        websocketHeaders, sessionHeaders]

/-- C2 (amended): only `execute_agent` and `execute_workflow` check the
envelope's `success` flag — they fail with a generic exception carrying
the whole envelope (not a structured error with just the server's
message).  The four listing/analytics operations
(`get_available_agents`, `get_available_workflows`,
`get_available_plugins`, `get_platform_analytics`) never look at
`success`: on a 2xx response they return the envelope's `data` field even
when `success` is `false`. -/
theorem success_flag_checked_only_by_execute_operations
    (fields : List (String × Json)) (d : Json)
    (hsuccess : ((fields.lookup "success").getD .null).truthy = false) :
    execute_agent ⟨200, .obj fields⟩ =
        .error (.operationFailed "Agent execution failed" (.obj fields)) ∧
    execute_workflow ⟨200, .obj fields⟩ =
        .error (.operationFailed "Workflow execution failed" (.obj fields)) ∧
    (fields.lookup "data" = some d →
      get_available_agents ⟨200, .obj fields⟩ = .ok d ∧
      get_available_workflows ⟨200, .obj fields⟩ = .ok d ∧
      get_available_plugins ⟨200, .obj fields⟩ = .ok d ∧
      get_platform_analytics ⟨200, .obj fields⟩ = .ok d) := by
  refine ⟨?_, ?_, fun hdata => ⟨?_, ?_, ?_, ?_⟩⟩ <;>
    simp_all [execute_agent, execute_workflow, get_available_agents,
      get_available_workflows, get_available_plugins, get_platform_analytics,
      raiseForStatus, dictGet, jsonIndex]

/-- Witness for C2's amended theorem: a concrete `success = false`
envelope. -/
theorem success_flag_witness :
    get_available_agents ⟨200, .obj [("success", .bool false), ("data", .arr [])]⟩ =
      .ok (.arr []) :=
  ((success_flag_checked_only_by_execute_operations
      [("success", .bool false), ("data", .arr [])] (.arr []) rfl).2.2 rfl).1

/-- C2 counterexample: a 2xx response whose envelope has `success = false`
still yields a typed value from `get_available_workflows` — the claim's
"never returns a typed response value" fails for the listing
operations. -/
theorem success_false_returns_data_counterexample :
    get_available_workflows
        ⟨200, .obj [("success", .bool false), ("data", .arr [.str "wf"])]⟩ =
      .ok (.arr [.str "wf"]) := rfl

/-- C8: a 2xx `execute_agent` reply `{"success": true, "data": D}` where
`D` has `response` and `metadata` yields
`AgentResponse(D.response, D.metadata, D.get("actions"))` — `actions`
present when `D` has it and `none` otherwise, no field lost or
renamed. -/
theorem execute_agent_maps_success_envelope
    (status : Nat) (fields dataFields : List (String × Json)) (r m : Json)
    (hstatus : 200 ≤ status ∧ status < 300)
    (hsuccess : fields.lookup "success" = some (.bool true))
    (hdata : fields.lookup "data" = some (.obj dataFields))
    (hr : dataFields.lookup "response" = some r)
    (hm : dataFields.lookup "metadata" = some m) :
    execute_agent ⟨status, .obj fields⟩ =
      .ok { response := r, metadata := m, actions := dataFields.lookup "actions" } := by
  have hcond : ¬ (400 ≤ status ∧ status < 600) := by omega
  simp [execute_agent, raiseForStatus, hcond, dictGet, jsonIndex,
        hsuccess, hdata, hr, hm, Json.truthy]

/-- Witness for C8: the spec's example scenario —
`{"success":true,"data":{"response":"found","metadata":{"ms":12}}}` yields
`AgentResponse{response:"found", metadata:{ms:12}, actions:null}`. -/
theorem execute_agent_example_witness :
    execute_agent ⟨200, .obj [("success", .bool true),
        ("data", .obj [("response", .str "found"),
                       ("metadata", .obj [("ms", .num 12)])])]⟩ =
      .ok { response := .str "found", metadata := .obj [("ms", .num 12)],
            actions := none } :=
  execute_agent_maps_success_envelope 200
    [("success", .bool true),
     ("data", .obj [("response", .str "found"), ("metadata", .obj [("ms", .num 12)])])]
    [("response", .str "found"), ("metadata", .obj [("ms", .num 12)])]
    (.str "found") (.obj [("ms", .num 12)]) (by omega) rfl rfl rfl rfl

theorem execute_mcp_obj (req : MCPRequest) (status : Nat)
    (fields : List (String × Json)) (hcond : ¬ (400 ≤ status ∧ status < 600)) :
    execute_mcp req ⟨status, .obj fields⟩ =
      if fields.all (fun kv => mcpAllowedKeys.contains kv.1) then
        .ok { jsonrpc := (fields.lookup "jsonrpc").getD (.str "2.0"),
              id := (fields.lookup "id").getD .null,
              result := (fields.lookup "result").getD .null,
              error := (fields.lookup "error").getD .null }
      else
        .error (.typeError "unexpected keyword argument") := by
  unfold execute_mcp raiseForStatus
  rw [if_neg hcond]

/-- C10: for a 2xx response whose JSON body is an object, `execute_mcp`
returns an `MCPResponse` exactly when every key of the body is among
`jsonrpc`, `id`, `result`, `error`; any other key makes the dataclass
unpacking `MCPResponse(**body)` raise, so the client is not
forward-compatible with extra MCP response fields. -/
theorem execute_mcp_rejects_unknown_keys
    (req : MCPRequest) (status : Nat) (fields : List (String × Json))
    (hstatus : 200 ≤ status ∧ status < 300) :
    (∃ resp, execute_mcp req ⟨status, .obj fields⟩ = .ok resp) ↔
      fields.all (fun kv => mcpAllowedKeys.contains kv.1) = true := by
  have hcond : ¬ (400 ≤ status ∧ status < 600) := by omega
  rw [execute_mcp_obj req status fields hcond]
  cases hall : fields.all (fun kv => mcpAllowedKeys.contains kv.1) with
  | true => simp
  | false => simp

/-- Witness for C10: a body with only a `result` key is accepted; the same
theorem also certifies (via `mpr`) that acceptance happened because all
keys are allowed. -/
theorem execute_mcp_keys_witness :
    ∃ resp, execute_mcp {} ⟨200, .obj [("result", .str "ok"), ("id", .num 1)]⟩ = .ok resp :=
  (execute_mcp_rejects_unknown_keys {} 200 [("result", .str "ok"), ("id", .num 1)]
    (by omega)).mpr rfl

/-- C1 (amended): the client performs no correlation-id validation at all:
`execute_tool` and `get_available_tools` never compare `response.id` with
the request's id, so a 2xx response whose `id` differs from the freshly
generated correlation id is processed exactly like a matching one — its
`result` is returned as a valid value (no `IdMismatch`-style error
exists in the code). -/
theorem mcp_response_id_never_validated
    (tool_name : String) (args : Json) (t : Nat) (respId res tools : Json)
    (_hmismatch : respId ≠ (executeToolRequest tool_name args t).id) :
    execute_tool tool_name args t
        ⟨200, .obj [("id", respId), ("result", res)]⟩ = .ok res ∧
    get_available_tools t
        ⟨200, .obj [("id", respId), ("result", .obj [("tools", tools)])]⟩ = .ok tools := by
  constructor <;>
    simp [execute_tool, get_available_tools, execute_mcp, executeToolRequest,
      getAvailableToolsRequest, raiseForStatus, mcpAllowedKeys, jsonIndex,
      Json.truthy, List.lookup]

/-- Witness for C1's amended theorem at a concrete mismatching pair:
request id `"5000"` (time 5000000µs), response id `"999"`. -/
theorem mcp_response_id_witness :
    execute_tool "lookup_customer" (.obj []) 5000000
        ⟨200, .obj [("id", .str "999"), ("result", .str "found")]⟩ = .ok (.str "found") :=
  (mcp_response_id_never_validated "lookup_customer" (.obj []) 5000000
      (.str "999") (.str "found") .null
      (fun h => absurd (by injection h) (by decide))).1

/-- C1 counterexample: the request generated at `t = 5000000`µs carries
correlation id `"5000"`; a server response carrying the different id
`"999"` is nevertheless treated as a valid result — no
`ProtocolError::IdMismatch` is ever raised. -/
theorem id_mismatch_accepted_counterexample :
    (executeToolRequest "lookup_customer" (.obj []) 5000000).id = .str "5000" ∧
    Json.str "5000" ≠ Json.str "999" ∧
    execute_tool "lookup_customer" (.obj []) 5000000
        ⟨200, .obj [("id", .str "999"), ("result", .str "found")]⟩ = .ok (.str "found") := by
  refine ⟨rfl, fun h => ?_, rfl⟩
  injection h with h'
  exact absurd h' (by decide)

/-- C9 (amended): correlation ids are `str(int(time.time() * 1000))`, the
decimal string of the wall-clock millisecond timestamp, so they are not
unique within the process: any two in-process calls whose generation times
fall within the same millisecond receive identical correlation ids. -/
theorem same_millisecond_calls_collide
    (tool_name : String) (args : Json) (t1 t2 : Nat)
    (hms : t1 / 1000 = t2 / 1000) :
    (executeToolRequest tool_name args t1).id = (getAvailableToolsRequest t2).id := by
  simp [executeToolRequest, getAvailableToolsRequest, mcpCorrelationId, hms]

/-- Witness for C9's amended theorem: times 1000µs and 1999µs share
millisecond 1. -/
theorem same_millisecond_calls_collide_witness :
    (executeToolRequest "execute_crm_agent" (.obj []) 1000).id =
      (getAvailableToolsRequest 1999).id :=
  same_millisecond_calls_collide "execute_crm_agent" (.obj []) 1000 1999 rfl

/-- C9 counterexample: two distinct calls — an `execute_tool` call at
1000µs and a `get_available_tools` call at the distinct time 1999µs, both
inside millisecond 1 — generate the same correlation id `"1"`, refuting
in-process uniqueness for same-millisecond pairs. -/
theorem distinct_calls_same_id_counterexample :
    (1000 : Nat) ≠ 1999 ∧
    (executeToolRequest "execute_crm_agent" (.obj []) 1000).id = .str "1" ∧
    (getAvailableToolsRequest 1999).id = .str "1" := by
  exact ⟨by decide, rfl, rfl⟩

/-- C6 (amended): `error` takes precedence over `result` only when the
`error` value is *truthy* in Python's sense (e.g. a non-empty object):
then both `execute_tool` and `get_available_tools` raise an error
carrying `error['message']` verbatim, even when `result` is also present.
An `error` field that is present but falsy — `null` or an empty object —
is treated as absent: the `result` field is returned unchanged
(`result['tools']` for `get_available_tools`). -/
theorem mcp_error_truthiness_precedence
    (tool_name : String) (args : Json) (t : Nat) (e res : Json) :
    (∀ msg, e.truthy = true → jsonIndex e "message" = .ok msg →
        execute_tool tool_name args t ⟨200, .obj [("error", e), ("result", res)]⟩ =
            .error (.rpcError msg) ∧
        get_available_tools t ⟨200, .obj [("error", e), ("result", res)]⟩ =
            .error (.rpcError msg)) ∧
    (e.truthy = false →
        execute_tool tool_name args t ⟨200, .obj [("error", e), ("result", res)]⟩ =
            .ok res ∧
        get_available_tools t ⟨200, .obj [("error", e), ("result", res)]⟩ =
            jsonIndex res "tools") := by
  have hcond : ¬ ((400 : Nat) ≤ 200 ∧ (200 : Nat) < 600) := by omega
  have hmcp := fun req => execute_mcp_obj req 200 [("error", e), ("result", res)] hcond
  constructor
  · intro msg htruthy hmsg
    constructor <;>
      simp [execute_tool, get_available_tools, hmcp, mcpAllowedKeys, List.lookup,
        htruthy, hmsg]
  · intro hfalsy
    constructor <;>
      simp [execute_tool, get_available_tools, hmcp, mcpAllowedKeys, List.lookup, hfalsy]

/-- Witness for C6's amended theorem: a truthy error object with a
`message` wins over a present `result` for both MCP operations; an empty
error object loses. -/
theorem mcp_error_truthiness_witness :
    execute_tool "t" (.obj []) 0
        ⟨200, .obj [("error", .obj [("code", .num 1), ("message", .str "boom")]),
                    ("result", .str "r")]⟩ =
      .error (.rpcError (.str "boom")) ∧
    get_available_tools 0
        ⟨200, .obj [("error", .obj [("code", .num 1), ("message", .str "boom")]),
                    ("result", .str "r")]⟩ =
      .error (.rpcError (.str "boom")) :=
  (mcp_error_truthiness_precedence "t" (.obj []) 0
      (.obj [("code", .num 1), ("message", .str "boom")]) (.str "r")).1
    (.str "boom") rfl rfl

/-- C6 counterexample: an MCP response whose `error` field is *present*
(an empty object) alongside a `result`: the claim demands an `RpcError`,
but `if response.error:` is false for an empty dict, so `execute_tool`
returns the result as a valid value. -/
theorem present_falsy_error_ignored_counterexample :
    execute_tool "t" (.obj []) 0
        ⟨200, .obj [("error", .obj []), ("result", .str "r")]⟩ = .ok (.str "r") := rfl

theorem replaceHttpWsAux_of_not_contains :
    ∀ (fuel : Nat) (l : List Char), containsHttp l = false → replaceHttpWsAux fuel l = l := by
  intro fuel
  induction fuel with
  | zero => intro l _; rfl
  | succ n ih =>
    intro l h
    match l with
    | [] => rfl
    | c :: rest =>
      rw [containsHttp] at h
      rw [Bool.or_eq_false_iff] at h
      rw [replaceHttpWsAux, if_neg (by simp [h.1]), ih rest h.2]

/-- C7 (amended): `connect_websocket` derives the socket address with
`base_url.replace('http', 'ws')`, which rewrites *every* occurrence of the
substring `http` — not only the scheme — and then appends `/v2/events`.
When the scheme prefix is the only occurrence of `http` in the base
address (the common case, covering both `http → ws` and `https → wss`),
this coincides with the claimed scheme swap leaving host and port
unchanged. -/
theorem ws_url_swaps_scheme_when_no_other_http
    (rest : List Char) (key : String) (tmo rt : Nat)
    (h : containsHttp rest = false) :
    ws_url { base_url := String.mk ('h' :: 't' :: 't' :: 'p' :: rest), api_key := key,
             timeout := tmo, retries := rt } =
      String.mk ('w' :: 's' :: rest) ++ "/v2/events" := by
  have hrepl : replaceHttpWs ('h' :: 't' :: 't' :: 'p' :: rest) = 'w' :: 's' :: rest := by
    rw [replaceHttpWs]
    simp only [List.length_cons]
    rw [replaceHttpWsAux]
    rw [if_pos (by rfl)]
    simp [replaceHttpWsAux_of_not_contains _ rest h]
  simp [ws_url, hrepl]

/-- Witness for C7's amended theorem: `https://api.orchestrall.com`
becomes `wss://api.orchestrall.com/v2/events`. -/
theorem ws_url_swaps_scheme_witness :
    ws_url { base_url := String.mk ('h' :: 't' :: 't' :: 'p' :: "s://api.orchestrall.com".toList),
             api_key := "k", timeout := 30, retries := 3 } =
      String.mk ('w' :: 's' :: "s://api.orchestrall.com".toList) ++ "/v2/events" :=
  ws_url_swaps_scheme_when_no_other_http "s://api.orchestrall.com".toList "k" 30 3 (by decide)

/-- C7 counterexample: for the base address
`http://httpserver.example:8080`, the claim demands the socket address
`ws://httpserver.example:8080/v2/events` (host unchanged); the code's
`replace('http', 'ws')` also rewrites the `http` inside the host name and
opens `ws://wsserver.example:8080/v2/events` instead. -/
theorem ws_url_rewrites_host_counterexample :
    ws_url { base_url := "http://httpserver.example:8080", api_key := "k" } =
        "ws://wsserver.example:8080/v2/events" ∧
    ws_url { base_url := "http://httpserver.example:8080", api_key := "k" } ≠
        "ws://httpserver.example:8080/v2/events" := by
  constructor
  · rfl
  · decide

/-- C5 (amended): an inbound frame that is not valid JSON is dropped: the
`except json.JSONDecodeError` arm prints a parse-failure line to standard
output, invokes no callback at all — in particular not the registered
`on_error` handler — and lets no exception escape, so the dispatch loop
survives and the connection stays open.  A frame that *is* valid JSON but
not a JSON object, however, escapes the narrow `except` clause:
`data.get('type')` raises an uncaught `AttributeError` out of the message
handler. -/
theorem malformed_frame_printed_not_reported (handlers : List String) :
    on_message handlers none =
      { printedParseFailure := true, dispatchedTo := none, raised := false } ∧
    (on_message handlers (some (.num 5))).raised = true := by
  exact ⟨rfl, rfl⟩

/-- C5 counterexample: with an `on_error` handler registered, a frame that
fails JSON parsing is only printed about — `dispatchedTo = none` shows the
registered error callback is never invoked, refuting "reported through
the registered error callback". -/
theorem malformed_frame_callback_counterexample :
    on_message ["on_error"] none =
      { printedParseFailure := true, dispatchedTo := none, raised := false } ∧
    ({ printedParseFailure := true, dispatchedTo := none, raised := false } :
        WsMessageOutcome).dispatchedTo ≠ some "on_error" := by
  exact ⟨rfl, by decide⟩
